import Mathlib

/-!
Verification of the monerium/go-sdk client against its specification.

The development shallowly embeds the Go source of `orders.go`, `client.go`
and `profiles.go`. Go errors are modelled as `Option String` / `Except
String` values carrying the error message; `fmt.Errorf` wrapping with a
`%w` verb becomes string concatenation of the annotating prefix with the
wrapped message. Pointers that may be nil are modelled with `Option`; a
nil-pointer dereference (a Go runtime panic) is modelled as the `none`
result of an `Option`-valued function. External collaborators
(`encoding/json.Unmarshal`, the websocket library, the OAuth2 token
source, the HTTP transport) are outside this repository, so their
outcomes are inputs of the embedding: a frame's payload is represented by
the outcome of decoding it, and the token source and dialer by the
results they produce. The background goroutine of `OrdersNotifications`
is embedded as a function from the serialized list of events its `select`
observes (ticker fires with a given read outcome, or context
cancellation) to the list of actions it performs (channel sends and the
websocket close).
-/

namespace Monerium

/-- Blockchain identifier (Go `type Chain string`). -/
abbrev Chain := String

/-- Currency identifier (Go `type Currency string`, declared outside the
files under verification; only compared with the empty string here). -/
abbrev Currency := String

/-- Order kind (Go `type OrderKind string`). -/
abbrev OrderKind := String

/-- Go constant `OrderKindRedeem`. -/
def OrderKindRedeem : OrderKind := "redeem"

/-- Go constant `OrderKindIssue`. -/
def OrderKindIssue : OrderKind := "issue"

/-- Order state (Go `type OrderState string`). -/
abbrev OrderState := String

/-- Opaque timestamp (Go `time.Time`, never inspected by the SDK). -/
abbrev GoTime := String

/-- Identifier of a Counterpart (`orders.go`). -/
structure Identifier where
  Standard : String
  IBAN : String
deriving DecidableEq, Inhabited

/-- Details of a Counterpart (`orders.go`). -/
structure CounterpartDetails where
  Country : String
  FirstName : String
  LastName : String
deriving DecidableEq, Inhabited

/-- Counterpart of an Order (`orders.go`). -/
structure Counterpart where
  Identifier : Identifier
  Details : CounterpartDetails
deriving DecidableEq, Inhabited

/-- Metadata of an Order (`orders.go`). -/
structure OrderMeta where
  ApprovedAt : GoTime
  ProcessedAt : GoTime
  RejectedAt : GoTime
  State : OrderState
  PlacedBy : String
  PlacedAt : GoTime
  ReceivedAmount : String
  SentAmount : String
deriving DecidableEq, Inhabited

/-- A payment Order (`orders.go`). -/
structure Order where
  ID : String
  Profile : String
  AccountID : String
  Address : String
  Kind : OrderKind
  Amount : String
  Currency : Currency
  Counterpart : Counterpart
  Memo : String
  RejectedReason : String
  SupportingDocumentID : String
  Meta : OrderMeta
deriving DecidableEq, Inhabited

/-- Result delivered on the notification channel (`orders.go`): a pair of
a possibly-nil Order pointer and a possibly-nil error. -/
structure OrderResult where
  Order : Option Order
  Error : Option String
deriving DecidableEq, Inhabited

/-- Websocket message type (external library `nhooyr.io/websocket`). -/
inductive MessageType
  | text
  | binary
deriving DecidableEq

/-- String rendering of a message type, as the websocket library's
`MessageType.String` produces for the `%s` verb. -/
def MessageType.render : MessageType → String
  | .text => "MessageText"
  | .binary => "MessageBinary"

/-- Payload of one inbound frame, represented by the outcome of the
external JSON decoder (`encoding/json.Unmarshal` is not code of this
repository): either it unmarshals to an Order or it fails with an error
message. -/
inductive Payload
  | wellFormed (o : Order)
  | malformed (e : String)
deriving DecidableEq

/-- Outcome of one `conn.Read` call on the websocket connection: either
the read itself fails, or it yields a frame of some message type carrying
a payload. -/
inductive ReadResult
  | fail (e : String)
  | frame (mt : MessageType) (bs : Payload)
deriving DecidableEq

/-- Embeds `newOrderFrom` (`orders.go`): unmarshal a byte slice into an
Order, propagating the decoder's error. -/
def newOrderFrom : Payload → Except String Order
  | .wellFormed o => .ok o
  | .malformed e => .error e

/-- Embeds `readOrder` (`orders.go`): read one frame from the connection;
fail on a read error (wrapped as "failed to read from websocket: …"), on
a non-text message type ("unsupported message type: …"), or on a decode
failure (wrapped as "failed to build order: …"). The Go function returns
`(nil, err)` on every failure and `(o, nil)` on success, which is exactly
an `Except String Order`. -/
def readOrder : ReadResult → Except String Order
  | .fail e => .error ("failed to read from websocket: " ++ e)
  | .frame mt bs =>
    if mt ≠ MessageType.text then
      .error ("unsupported message type: " ++ mt.render)
    else
      match newOrderFrom bs with
      | .error e => .error ("failed to build order: " ++ e)
      | .ok o => .ok o

/-- Websocket close status; the SDK only ever uses
`websocket.StatusNormalClosure`. -/
inductive CloseStatus
  | normalClosure
deriving DecidableEq

/-- One event observed by the `select` of the notification goroutine:
either the caller's context is done (with the given `ctx.Err()` message),
or the ticker fires and the subsequent `readOrder` call observes the
given read outcome. -/
inductive LoopEvent
  | ctxDone (ctxErr : String)
  | tick (r : ReadResult)
deriving DecidableEq

/-- One externally visible action of the notification goroutine: a send
on the caller-supplied channel, or closing the websocket connection. -/
inductive LoopAction
  | closeConn (status : CloseStatus) (reason : String)
  | send (res : OrderResult)
deriving DecidableEq

/-- Actions performed by one ticker iteration of the goroutine in
`OrdersNotifications` (`orders.go`). In the Go source, when `readOrder`
returns an error the branch sends `{nil, wrapped error}` but does not
`continue`, so control falls through to the unconditional
`os <- &OrderResult{o, nil}` with `o` still nil: an error tick performs
two sends, the second being `{nil, nil}`. A successful tick performs the
single send `{o, nil}`. -/
def tickActions (r : ReadResult) : List LoopAction :=
  match readOrder r with
  | .error e =>
    [.send { Order := none, Error := some ("failed to read order: " ++ e) },
     .send { Order := none, Error := none }]
  | .ok o => [.send { Order := some o, Error := none }]

/-- Embeds the goroutine loop of `OrdersNotifications` (`orders.go`) as a
function of the serialized list of events its `select` observes. On
context cancellation it closes the connection with the normal-closure
status and reason "stopping connection", sends `{nil, ctx.Err()}` and
returns, ignoring any later event; on a ticker fire it performs the tick
actions and loops. -/
def loopRun : List LoopEvent → List LoopAction
  | [] => []
  | .ctxDone e :: _ =>
    [.closeConn .normalClosure "stopping connection",
     .send { Order := none, Error := some e }]
  | .tick r :: rest => tickActions r ++ loopRun rest

/-- Values delivered to the caller-supplied channel, in order, among a
list of loop actions. -/
def sinkOf (as : List LoopAction) : List OrderResult :=
  as.filterMap fun a =>
    match a with
    | .send res => some res
    | .closeConn _ _ => none

/-- API client (`client.go`); only the fields the verified operations
read are carried. -/
structure Client where
  baseURL : String
  wsURL : String
  notifyTickMillis : Nat
deriving DecidableEq

/-- Request for order notifications (`orders.go`). -/
structure OrdersNotificationsRequest where
  ProfileID : String
deriving DecidableEq

/-- Embeds `newAuthorizationHeaderFrom` (`client.go`): an HTTP header map
with a single Authorization entry carrying the bearer token. -/
def newAuthorizationHeaderFrom (accessToken : String) : List (String × List String) :=
  [("Authorization", ["Bearer " ++ accessToken])]

/-- Path computation of `OrdersNotifications` (`orders.go`): start from
`wsURL + "/orders"` and override with
`wsURL + "/profiles/" + ProfileID + "/orders"` when a request is present
with a non-empty ProfileID. The Go request pointer may be nil, hence the
`Option`. -/
def ordersNotificationsPath (c : Client) (req : Option OrdersNotificationsRequest) : String :=
  match req with
  | none => c.wsURL ++ "/orders"
  | some r =>
    if r.ProfileID ≠ "" then c.wsURL ++ "/profiles/" ++ r.ProfileID ++ "/orders"
    else c.wsURL ++ "/orders"

/-- Environment of one `OrdersNotifications` call: the outcome of
`tokenSource.Token()` (an access token or an error), the outcome of
`dialWebsocket`, and the serialized events the goroutine's `select`
observes once spawned. -/
structure NotifEnv where
  tokenResult : Except String String
  dialResult : Except String Unit
  events : List LoopEvent

/-- Externally visible effect of an `OrdersNotifications` call: the token
request to the token source, the websocket dial with its target path and
headers, the spawning of the background goroutine, and each action of the
spawned goroutine. -/
inductive NotifEffect
  | tokenRequest
  | dial (path : String) (headers : List (String × List String))
  | spawnGoroutine
  | loopAct (a : LoopAction)
deriving DecidableEq

/-- Embeds `OrdersNotifications` (`orders.go`): request a token (failing
with "failed to get auth token: …"), build the path, dial the websocket
with the bearer header (failing with "failed to dial websocket: …"),
spawn the goroutine and return nil. The first component lists the
effects in program order; the second is the function's error return. -/
def OrdersNotifications (c : Client) (req : Option OrdersNotificationsRequest)
    (env : NotifEnv) : List NotifEffect × Option String :=
  match env.tokenResult with
  | .error e => ([.tokenRequest], some ("failed to get auth token: " ++ e))
  | .ok tok =>
    let path := ordersNotificationsPath c req
    match env.dialResult with
    | .error e =>
      ([.tokenRequest, .dial path (newAuthorizationHeaderFrom tok)],
       some ("failed to dial websocket: " ++ e))
    | .ok _ =>
      ([.tokenRequest, .dial path (newAuthorizationHeaderFrom tok), .spawnGoroutine]
         ++ (loopRun env.events).map .loopAct,
       none)

/-- Values delivered to the caller-supplied channel among the effects of
an `OrdersNotifications` call. -/
def effectSink (es : List NotifEffect) : List OrderResult :=
  es.filterMap fun e =>
    match e with
    | .loopAct (.send res) => some res
    | _ => none

/-- An HTTP request the client issues against its base URL (`client.go`). -/
inductive HTTPEffect
  | get (path : String)
  | post (path : String)
deriving DecidableEq

/-- Outcome of one client call, up to the external HTTP round trip: the
call dereferenced a nil pointer (Go runtime panic), or returned an error
before issuing any HTTP request, or issued the given HTTP request (whose
response handling is external input). -/
inductive CallOutcome
  | panicked
  | failed (e : String)
  | requested (eff : HTTPEffect)
deriving DecidableEq

/-- Request for placing an order (`orders.go`). -/
structure PlaceOrderRequest where
  Address : String
  Currency : Currency
  Chain : Chain
  AccountID : String
  Kind : OrderKind
  Amount : String
  Signature : String
  Message : String
  Counterpart : Option Counterpart
  Memo : String
  SupportingDocumentID : String
deriving DecidableEq, Inhabited

/-- Embeds `(*PlaceOrderRequest).Validate` (`orders.go`); the Go pointer
receiver may be nil, hence the `Option` argument. Returns the error, or
`none` when the request is valid. -/
def PlaceOrderRequestValidate : Option PlaceOrderRequest → Option String
  | none => some "PlaceOrderRequest is required"
  | some r =>
    if r.Kind ≠ OrderKindRedeem then
      some "only redeem order is possible to be placed"
    else if r.Counterpart = none then
      some "order counterpart is missing"
    else if r.Message = "" ∨ r.Signature = "" then
      some "message or signature missing"
    else if r.AccountID ≠ "" then
      none
    else if r.Chain = "" ∨ r.Currency = "" ∨ r.Address = "" then
      some "either AccountID or Chain, Address and Currency are required"
    else
      none

/-- Embeds `(*Client).PlaceOrder` (`orders.go`) up to the HTTP round
trip: validate the request, returning the validation error without any
HTTP activity when it fails, and otherwise issue one POST to "/orders"
(the response unmarshalling consumes external input and is not modelled
further). -/
def PlaceOrder (req : Option PlaceOrderRequest) : CallOutcome :=
  match PlaceOrderRequestValidate req with
  | some e => .failed e
  | none => .requested (.post "/orders")

/-- Request for retrieving a single order (`orders.go`). -/
structure GetOrderRequest where
  OrderID : String
deriving DecidableEq

/-- Embeds `(*Client).GetOrder` (`orders.go`) up to the HTTP round trip:
the function dereferences `req.OrderID` with no nil check, so a nil
request is a runtime panic; otherwise it issues one GET against
`"/orders/" ++ OrderID` (via `fmt.Sprintf("/orders/%s", req.OrderID)`). -/
def GetOrder : Option GetOrderRequest → CallOutcome
  | none => .panicked
  | some r => .requested (.get ("/orders/" ++ r.OrderID))

/-- Request for retrieving a single profile (`profiles.go`). -/
structure GetProfileRequest where
  ProfileID : String
deriving DecidableEq

/-- Embeds `(*GetProfileRequest).Validate` (`profiles.go`): a nil request
and an empty ProfileID are rejected with an error. -/
def GetProfileRequestValidate : Option GetProfileRequest → Option String
  | none => some "GetProfileRequest is required"
  | some r => if r.ProfileID = "" then some "empty profileID" else none

/-- Embeds `(*Client).GetProfile` (`profiles.go`) up to the HTTP round
trip: validate the request (rejecting nil with an error rather than
panicking), then issue one GET against `"/profiles/" ++ ProfileID`. -/
def GetProfile (req : Option GetProfileRequest) : CallOutcome :=
  match GetProfileRequestValidate req with
  | some e => .failed e
  | none =>
    match req with
    | some r => .requested (.get ("/profiles/" ++ r.ProfileID))
    | none => .panicked

/-- Restatement of claim C9's enumeration of the validation-failure
conditions, written from the claim's words (nil request, Kind other than
redeem, nil Counterpart, empty Message or Signature, or empty AccountID
together with any of Chain, Currency, Address empty), to be compared
with the source-derived `PlaceOrderRequestValidate`. -/
def failsValidationSpec (req : Option PlaceOrderRequest) : Bool :=
  match req with
  | none => true
  | some r =>
    decide (r.Kind ≠ OrderKindRedeem) || decide (r.Counterpart = none) ||
    decide (r.Message = "") || decide (r.Signature = "") ||
    (decide (r.AccountID = "") &&
      (decide (r.Chain = "") || decide (r.Currency = "") || decide (r.Address = "")))

/-- Number of token requests among the effects of a call. -/
def countTokenRequests : List NotifEffect → Nat
  | [] => 0
  | .tokenRequest :: rest => countTokenRequests rest + 1
  | _ :: rest => countTokenRequests rest

/-- Sample order used to instantiate concrete scenarios. -/
def sampleOrder : Order := default

/-- Second sample order, distinct from `sampleOrder`. -/
def sampleOrder2 : Order := { (default : Order) with ID := "order-2" }

lemma countTokenRequests_map_loopAct (as : List LoopAction) :
    countTokenRequests (as.map NotifEffect.loopAct) = 0 := by
  induction as with
  | nil => rfl
  | cons a rest ih => simpa [countTokenRequests] using ih

lemma loopRun_all_ticks_append (pre rest : List LoopEvent)
    (hpre : ∀ ev ∈ pre, ∃ r, ev = LoopEvent.tick r) :
    loopRun (pre ++ rest) = loopRun pre ++ loopRun rest := by
  induction pre with
  | nil => rfl
  | cons ev tl ih =>
    obtain ⟨r, rfl⟩ := hpre ev (List.mem_cons_self ..)
    have htl : ∀ x ∈ tl, ∃ rr, x = LoopEvent.tick rr :=
      fun x hx => hpre x (List.mem_cons_of_mem _ hx)
    simp [loopRun, ih htl]

end Monerium

namespace Monerium

/-- C1: the claim that every delivered OrderResult has exactly one of
Order and Error populated fails on the code: a failed read makes the
error branch send the wrapped error, and because the branch does not
terminate the iteration, the unconditional send then delivers
`{Order := nil, Error := nil}` — a value with neither field populated. -/
theorem c1_read_error_delivers_empty_result :
    sinkOf (loopRun [LoopEvent.tick (ReadResult.fail "connection reset")]) =
      [{ Order := none,
         Error := some "failed to read order: failed to read from websocket: connection reset" },
       { Order := none, Error := none }] := rfl

/-- C2: the claim that a run of N well-formed frames, one malformed
frame, then M well-formed frames yields exactly N + 1 + M deliveries
(one per frame) fails on the code: with N = M = 1 the sink receives four
deliveries for three frames, the malformed frame contributing both its
decode-error result and a spurious `{nil, nil}` value. -/
theorem c2_malformed_frame_double_delivery :
    sinkOf (loopRun
        [LoopEvent.tick (ReadResult.frame .text (.wellFormed sampleOrder)),
         LoopEvent.tick (ReadResult.frame .text (.malformed "unexpected end of JSON input")),
         LoopEvent.tick (ReadResult.frame .text (.wellFormed sampleOrder2))]) =
      [{ Order := some sampleOrder, Error := none },
       { Order := none,
         Error := some "failed to read order: failed to build order: unexpected end of JSON input" },
       { Order := none, Error := none },
       { Order := some sampleOrder2, Error := none }] := rfl

/-- C3: when the loop observes the context's cancellation after any run
of ticker iterations, it closes the connection with the normal-closure
status, delivers the single result carrying `ctx.Err()` and a nil Order,
and terminates: events after the cancellation contribute nothing, so the
cancellation result is the last value ever delivered. -/
theorem c3_cancellation_final_delivery (pre : List LoopEvent) (e : String)
    (post : List LoopEvent) (hpre : ∀ ev ∈ pre, ∃ r, ev = LoopEvent.tick r) :
    loopRun (pre ++ LoopEvent.ctxDone e :: post) =
      loopRun pre ++
        [LoopAction.closeConn CloseStatus.normalClosure "stopping connection",
         LoopAction.send { Order := none, Error := some e }] := by
  rw [loopRun_all_ticks_append pre _ hpre]
  rfl

theorem c3_cancellation_final_delivery_witness :
    loopRun ([LoopEvent.tick (ReadResult.frame .text (.wellFormed sampleOrder))] ++
        LoopEvent.ctxDone "context canceled" :: [LoopEvent.tick (ReadResult.fail "late")]) =
      loopRun [LoopEvent.tick (ReadResult.frame .text (.wellFormed sampleOrder))] ++
        [LoopAction.closeConn CloseStatus.normalClosure "stopping connection",
         LoopAction.send { Order := none, Error := some "context canceled" }] :=
  c3_cancellation_final_delivery _ "context canceled" _ (by
    intro ev hv
    simp only [List.mem_singleton] at hv
    exact ⟨_, hv⟩)

/-- C4: when token acquisition or the websocket dial fails,
OrdersNotifications returns the correspondingly wrapped error as its
synchronous return value, spawns no goroutine, and the sink receives no
delivery at all. -/
theorem c4_setup_failure_synchronous (c : Client) (req : Option OrdersNotificationsRequest)
    (env : NotifEnv)
    (h : (∃ e, env.tokenResult = Except.error e) ∨ (∃ e, env.dialResult = Except.error e)) :
    (∃ msg, (OrdersNotifications c req env).2 = some msg) ∧
    NotifEffect.spawnGoroutine ∉ (OrdersNotifications c req env).1 ∧
    effectSink (OrdersNotifications c req env).1 = [] ∧
    (∀ e, env.tokenResult = Except.error e →
      (OrdersNotifications c req env).2 = some ("failed to get auth token: " ++ e)) ∧
    (∀ tok e, env.tokenResult = Except.ok tok → env.dialResult = Except.error e →
      (OrdersNotifications c req env).2 = some ("failed to dial websocket: " ++ e)) := by
  obtain ⟨tr, dr, evs⟩ := env
  cases tr with
  | error e => simp [OrdersNotifications, effectSink]
  | ok tok =>
    cases dr with
    | error e => simp [OrdersNotifications, effectSink]
    | ok u =>
      rcases h with ⟨e, he⟩ | ⟨e, he⟩ <;> exact absurd he (by simp)

theorem c4_setup_failure_synchronous_witness :
    ((∃ e, ({ tokenResult := Except.error "oauth2: cannot fetch token",
              dialResult := Except.ok (), events := [] } : NotifEnv).tokenResult =
        Except.error e) ∨
      (∃ e, ({ tokenResult := Except.error "oauth2: cannot fetch token",
               dialResult := Except.ok (), events := [] } : NotifEnv).dialResult =
        Except.error e)) ∧
    effectSink (OrdersNotifications { baseURL := "b", wsURL := "w", notifyTickMillis := 500 }
        none { tokenResult := Except.error "oauth2: cannot fetch token",
               dialResult := Except.ok (), events := [] }).1 = [] :=
  ⟨Or.inl ⟨_, rfl⟩,
    (c4_setup_failure_synchronous { baseURL := "b", wsURL := "w", notifyTickMillis := 500 }
      none { tokenResult := Except.error "oauth2: cannot fetch token",
             dialResult := Except.ok (), events := [] }
      (Or.inl ⟨_, rfl⟩)).2.2.1⟩

/-- C5: a failed read does not terminate the loop: the iteration delivers
the error annotated with the "failed to read order: " prefix (followed by
the fall-through `{nil, nil}` send of the same iteration) and the loop
goes on to process every later event. -/
theorem c5_read_error_nonfatal (pre post : List LoopEvent) (r : ReadResult) (e : String)
    (hpre : ∀ ev ∈ pre, ∃ rr, ev = LoopEvent.tick rr)
    (hr : readOrder r = Except.error e) :
    loopRun (pre ++ LoopEvent.tick r :: post) =
      loopRun pre ++
        (LoopAction.send { Order := none, Error := some ("failed to read order: " ++ e) } ::
         LoopAction.send { Order := none, Error := none } :: loopRun post) := by
  rw [loopRun_all_ticks_append pre _ hpre]
  simp [loopRun, tickActions, hr]

theorem c5_read_error_nonfatal_witness :
    loopRun ([] ++ LoopEvent.tick (ReadResult.fail "connection reset") ::
        [LoopEvent.tick (ReadResult.frame .text (.wellFormed sampleOrder))]) =
      loopRun [] ++
        (LoopAction.send { Order := none, Error := some "failed to read order: failed to read from websocket: connection reset" } ::
         LoopAction.send { Order := none, Error := none } ::
         loopRun [LoopEvent.tick (ReadResult.frame .text (.wellFormed sampleOrder))]) :=
  c5_read_error_nonfatal [] _ _ _ (by intro ev hv; exact absurd hv (List.not_mem_nil ev)) rfl

/-- C6: with a non-empty ProfileID the call dials
`wsURL ++ "/profiles/" ++ ProfileID ++ "/orders"`, and with an empty one
it dials `wsURL ++ "/orders"`, in both cases with the bearer header. -/
theorem c6_dial_path (c : Client) (r : OrdersNotificationsRequest) (env : NotifEnv)
    (tok : String) (h : env.tokenResult = Except.ok tok) :
    NotifEffect.dial
        (if r.ProfileID = "" then c.wsURL ++ "/orders"
         else c.wsURL ++ "/profiles/" ++ r.ProfileID ++ "/orders")
        (newAuthorizationHeaderFrom tok) ∈ (OrdersNotifications c (some r) env).1 := by
  obtain ⟨tr, dr, evs⟩ := env
  cases h
  by_cases hp : r.ProfileID = "" <;>
    cases dr <;> simp [OrdersNotifications, ordersNotificationsPath, hp]

theorem c6_dial_path_witness :
    NotifEffect.dial
        (if ("profile-1" : String) = "" then "wss://api" ++ "/orders"
         else "wss://api" ++ "/profiles/" ++ "profile-1" ++ "/orders")
        (newAuthorizationHeaderFrom "tok") ∈
      (OrdersNotifications { baseURL := "https://api", wsURL := "wss://api", notifyTickMillis := 500 }
        (some { ProfileID := "profile-1" })
        { tokenResult := Except.ok "tok", dialResult := Except.ok (), events := [] }).1 :=
  c6_dial_path _ _ _ _ rfl

/-- C7: every call issues exactly one token request, as its first effect
and hence before the dial; the spawned loop performs only channel sends
and connection closes, so no further token request ever happens. -/
theorem c7_single_token_request (c : Client) (req : Option OrdersNotificationsRequest)
    (env : NotifEnv) :
    countTokenRequests (OrdersNotifications c req env).1 = 1 ∧
    (OrdersNotifications c req env).1.head? = some NotifEffect.tokenRequest := by
  obtain ⟨tr, dr, evs⟩ := env
  cases tr with
  | error e => simp [OrdersNotifications, countTokenRequests]
  | ok tok =>
    cases dr with
    | error e => simp [OrdersNotifications, countTokenRequests]
    | ok u =>
      refine ⟨?_, by simp [OrdersNotifications]⟩
      simp [OrdersNotifications, countTokenRequests, countTokenRequests_map_loopAct]

/-- C8: a nil request behaves exactly like a request with an empty
ProfileID: the call is the same function of the environment, and the
dialed path is the all-profiles endpoint `wsURL ++ "/orders"`. -/
theorem c8_nil_request (c : Client) (env : NotifEnv) :
    OrdersNotifications c none env = OrdersNotifications c (some { ProfileID := "" }) env ∧
    ordersNotificationsPath c none = c.wsURL ++ "/orders" := by
  obtain ⟨tr, dr, evs⟩ := env
  refine ⟨?_, rfl⟩
  cases tr <;> cases dr <;> simp [OrdersNotifications, ordersNotificationsPath]

/-- C9: a request fails validation exactly under the claimed conditions
(nil request, Kind other than redeem, nil Counterpart, empty Message or
Signature, or empty AccountID together with an empty Chain, Currency or
Address); a failing request makes PlaceOrder return the validation error
with no HTTP activity, and a passing one makes it issue exactly one POST
to "/orders". -/
theorem c9_placeOrder_validation (req : Option PlaceOrderRequest) :
    (failsValidationSpec req = true ↔
      ∃ e, PlaceOrderRequestValidate req = some e ∧ PlaceOrder req = CallOutcome.failed e) ∧
    (failsValidationSpec req = false ↔
      PlaceOrder req = CallOutcome.requested (HTTPEffect.post "/orders")) := by
  cases req with
  | none => simp [failsValidationSpec, PlaceOrderRequestValidate, PlaceOrder]
  | some r =>
    by_cases hKind : r.Kind = OrderKindRedeem <;>
    by_cases hCp : r.Counterpart = none <;>
    by_cases hMsg : r.Message = "" <;>
    by_cases hSig : r.Signature = "" <;>
    by_cases hAcc : r.AccountID = "" <;>
    by_cases hCh : r.Chain = "" <;>
    by_cases hCur : r.Currency = "" <;>
    by_cases hAddr : r.Address = "" <;>
    simp [failsValidationSpec, PlaceOrderRequestValidate, PlaceOrder,
      hKind, hCp, hMsg, hSig, hAcc, hCh, hCur, hAddr]

/-- C10: GetOrder has no nil check: a nil request is a nil-pointer
dereference (modelled as `panicked`), in contrast with GetProfile and
PlaceOrder, which reject a nil request with a validation error; every
non-nil request, the empty OrderID included, leads to the GET against
`"/orders/" ++ OrderID`. -/
theorem c10_getOrder_nil_unchecked :
    GetOrder none = CallOutcome.panicked ∧
    (∀ r : GetOrderRequest,
      GetOrder (some r) = CallOutcome.requested (HTTPEffect.get ("/orders/" ++ r.OrderID))) ∧
    GetOrder (some { OrderID := "" }) = CallOutcome.requested (HTTPEffect.get "/orders/") ∧
    GetProfile none = CallOutcome.failed "GetProfileRequest is required" ∧
    PlaceOrder none = CallOutcome.failed "PlaceOrderRequest is required" :=
  ⟨rfl, fun _ => rfl, rfl, rfl, rfl⟩

end Monerium
